import Mathlib

/-!
The GraphiQL page renderer of `handler` (`graphiql.go`)

A shallow embedding of `renderGraphiQL` together with the library operations it
calls, followed by the properties of the renderer stated in the specification.

The renderer is effectful: it writes to an `http.ResponseWriter`, calls the
GraphQL execution engine and calls the template and JSON libraries.  The
embedding is state passing: the response writer is a record that each operation
returns updated, and every call that leaves the package (`graphql.Do`,
`ExecuteTemplate`, `http.Error`) is recorded, in order, in a trace.

What the Go libraries do is not part of `graphiql.go`.  It enters in two ways:

* as parameters, where only the library knows the answer: the engine
  (`Do`), the connection behind the response writer (`conn`) and what the
  template library does with static text and with action values
  (`TemplateLib`);
* as small executable models, where the renderer depends on a documented
  library behaviour: `encoding/json` on a tree of values (`MarshalIndent`), the
  status and body bookkeeping of `net/http` (`WriteHeader`, `Write`, `Error`),
  the splitting of a template text into static text, `define` blocks and other
  actions (`Parse`), and the rewriting of static text by `html/template`
  (`escapeText`, which instantiates `TemplateLib` in `htmlTemplate`).
-/

namespace Handler

/-! ## `encoding/json` -/

/-- A Go value as `encoding/json` sees it.  `null` stands for a nil map, slice,
pointer or interface, `obj` for a map or struct with its members in the order in
which the encoder emits them, and `unsupported` for a value the encoder rejects
(a channel, a function, a complex number), named by its type.  Floating point
numbers are left out. -/
inductive Value where
  | null
  | bool (b : Bool)
  | int (n : Int)
  | str (s : String)
  | arr (xs : List Value)
  | obj (members : List (String × Value))
  | unsupported (typ : String)

/-- One lower-case hexadecimal digit. -/
def hexDigit (n : Nat) : Char :=
  if n < 10 then Char.ofNat (48 + n) else Char.ofNat (87 + n)

/-- The encoding of one character inside a JSON string, with HTML escaping on
(as `json.Marshal` has it): the quote and the backslash get a backslash, the
control characters their short or `\u00XX` form, and `<`, `>`, `&`, U+2028 and
U+2029 their `\uXXXX` form. -/
def escapeRune (c : Char) : List Char :=
  let bs := Char.ofNat 92
  if c = bs ∨ c = Char.ofNat 34 then [bs, c]
  else if c = Char.ofNat 8 then [bs, 'b']
  else if c = Char.ofNat 12 then [bs, 'f']
  else if c = Char.ofNat 10 then [bs, 'n']
  else if c = Char.ofNat 13 then [bs, 'r']
  else if c = Char.ofNat 9 then [bs, 't']
  else if c.toNat < 32 ∨ c = '<' ∨ c = '>' ∨ c = '&' then
    [bs, 'u', '0', '0', hexDigit (c.toNat / 16), hexDigit (c.toNat % 16)]
  else if c = Char.ofNat 8232 then [bs, 'u', '2', '0', '2', '8']
  else if c = Char.ofNat 8233 then [bs, 'u', '2', '0', '2', '9']
  else [c]

/-- A JSON string literal. -/
def quote (s : String) : String :=
  String.mk (Char.ofNat 34 :: (s.data.flatMap escapeRune ++ [Char.ofNat 34]))

/-- The line break of indented output: a newline, the prefix, and one copy of
the indent per nesting level. -/
def newline (pre indent : String) (depth : Nat) : String :=
  "\n" ++ pre ++ String.join (List.replicate depth indent)

mutual
/-- The indented encoding of a value at a nesting depth. -/
def encode (pre indent : String) (depth : Nat) : Value → Except String String
  | .null => .ok "null"
  | .bool true => .ok "true"
  | .bool false => .ok "false"
  | .int n => .ok (toString n)
  | .str s => .ok (quote s)
  | .arr [] => .ok "[]"
  | .arr (x :: xs) =>
    match encodeElems pre indent (depth + 1) (x :: xs) with
    | .error e => .error e
    | .ok inner =>
      .ok ("[" ++ newline pre indent (depth + 1) ++ inner ++ newline pre indent depth ++ "]")
  | .obj [] => .ok "\x7b\x7d"
  | .obj (m :: ms) =>
    match encodeMembers pre indent (depth + 1) (m :: ms) with
    | .error e => .error e
    | .ok inner =>
      .ok ("\x7b" ++ newline pre indent (depth + 1) ++ inner ++ newline pre indent depth ++ "\x7d")
  | .unsupported typ => .error ("json: unsupported type: " ++ typ)
/-- The elements of an array, one per line. -/
def encodeElems (pre indent : String) (depth : Nat) : List Value → Except String String
  | [] => .ok ""
  | [x] => encode pre indent depth x
  | x :: y :: rest =>
    match encode pre indent depth x with
    | .error e => .error e
    | .ok s =>
      match encodeElems pre indent depth (y :: rest) with
      | .error e => .error e
      | .ok t => .ok (s ++ "," ++ newline pre indent depth ++ t)
/-- The members of an object, one per line, each as `"key": value`. -/
def encodeMembers (pre indent : String) (depth : Nat) :
    List (String × Value) → Except String String
  | [] => .ok ""
  | [(k, v)] =>
    match encode pre indent depth v with
    | .error e => .error e
    | .ok s => .ok (quote k ++ ": " ++ s)
  | (k, v) :: m :: rest =>
    match encode pre indent depth v with
    | .error e => .error e
    | .ok s =>
      match encodeMembers pre indent depth (m :: rest) with
      | .error e => .error e
      | .ok t => .ok (quote k ++ ": " ++ s ++ "," ++ newline pre indent depth ++ t)
end

/-- The Go function `json.MarshalIndent(v, prefix, indent)`: the encoding of `v` with
every element on its own line, or the encoder's error. -/
def MarshalIndent (v : Value) (pre indent : String) : Except String String :=
  encode pre indent 0 v

/-! ## `graphql.Params` and the page data -/

/-- The fields of `graphql.Params` that the renderer reads; the others (schema, root
object, context) travel with the value untouched.  `VariableValues` is a Go map:
`none` is the nil map, `some ms` a map with the members `ms`. -/
structure Params where
  RequestString : String
  VariableValues : Option (List (String × Value))
  OperationName : String

/-- A `map[string]interface{}` as the value the encoder walks. -/
def mapValue : Option (List (String × Value)) → Value
  | none => .null
  | some ms => .obj ms

/-- The page data structure of the rendered GraphiQL page. -/
structure graphiqlData where
  GraphiqlVersion : String
  QueryString : String
  VariablesString : String
  OperationName : String
  ResultString : String
deriving DecidableEq

/-- The current version of GraphiQL. -/
def graphiqlVersion : String := "3.2.0"

/-! ## `net/http` -/

/-- The Go constant `http.StatusOK`. -/
def StatusOK : Nat := 200

/-- The Go constant `http.StatusInternalServerError`. -/
def StatusInternalServerError : Nat := 500

/-- An `http.ResponseWriter`.  `wroteHeader` and `status` record the status line
(sent once), `body` the bytes the connection has accepted, `header` the header
map.  `conn` is the connection: asked with the bytes accepted so far and the
next chunk, it answers `none` when it takes the whole chunk, and `some (n, err)`
when it takes only the first `n` bytes and the write returns the error `err`. -/
structure ResponseWriter where
  header : List (String × String)
  wroteHeader : Bool
  status : Nat
  body : String
  conn : String → String → Option (Nat × String)

namespace ResponseWriter

/-- The Go call `w.Header().Set(key, value)`. -/
def setHeader (w : ResponseWriter) (key value : String) : ResponseWriter :=
  { w with header := (key, value) :: w.header.filter (fun kv => kv.1 ≠ key) }

/-- The Go call `w.WriteHeader(code)`: the first call fixes the status, a later one is ignored. -/
def WriteHeader (w : ResponseWriter) (code : Nat) : ResponseWriter :=
  if w.wroteHeader then w else { w with wroteHeader := true, status := code }

/-- The Go call `w.Write(p)`: sends the status line with `StatusOK` when none was sent
yet, then hands the bytes to the connection.  Returns the error of the write. -/
def Write (w : ResponseWriter) (p : String) : ResponseWriter × Option String :=
  let w1 := w.WriteHeader StatusOK
  match w1.conn w1.body p with
  | none => ({ w1 with body := w1.body ++ p }, none)
  | some (n, err) => ({ w1 with body := w1.body ++ String.mk (p.data.take n) }, some err)

end ResponseWriter

/-- The Go function `http.Error(w, error, code)`: a plain-text content type, the status
line, then the message and a newline (`fmt.Fprintln`), whose write error is
dropped. -/
def Error (w : ResponseWriter) (error : String) (code : Nat) : ResponseWriter :=
  let w1 := w.setHeader "Content-Type" "text/plain; charset=utf-8"
  let w2 := w1.setHeader "X-Content-Type-Options" "nosniff"
  ((w2.WriteHeader code).Write (error ++ "\n")).1

/-! ## `html/template` -/

/-- A node of a parsed template: static text, or an action (kept as its source
text) whose value is computed from the page data when the template runs. -/
inductive Node where
  | text (s : String)
  | action (src : String)
deriving DecidableEq

/-- A template and the templates associated with it, by name; the first entry of
a name is the one in force. -/
structure Template where
  name : String
  tmpl : List (String × List Node)
deriving DecidableEq

/-- The Go function `template.New(name)`. -/
def New (name : String) : Template := { name := name, tmpl := [] }

/-- A piece of a template text: text outside the delimiters, or what stands
between a left and a right delimiter. -/
inductive Item where
  | text (s : String)
  | action (src : String)
deriving DecidableEq

/-- The left delimiter is two of these. -/
def leftBrace : Char := Char.ofNat 123

/-- The right delimiter is two of these. -/
def rightBrace : Char := Char.ofNat 125

/-- A text item of the collected characters (given newest first), none when there are none. -/
def flushText (acc : List Char) (items : List Item) : List Item :=
  if acc.isEmpty then items else Item.text (String.mk acc.reverse) :: items

/-- Splits a template text at the delimiters.  `inAction` tells on which side of
a left delimiter the scan is, `acc` holds the characters of the current piece,
newest first.  Trim markers, comments and quoted delimiters, which the template
of this package does not use, are not treated. -/
def lex : (inAction : Bool) → (acc : List Char) → List Char → Except String (List Item)
  | false, acc, [] => .ok (flushText acc [])
  | true, _, [] => .error "unclosed action"
  | false, acc, [c] => .ok (flushText (c :: acc) [])
  | true, _, [_] => .error "unclosed action"
  | false, acc, c :: d :: rest =>
    if c = leftBrace ∧ d = leftBrace then
      match lex true [] rest with
      | .error e => .error e
      | .ok items => .ok (flushText acc items)
    else lex false (c :: acc) (d :: rest)
  | true, acc, c :: d :: rest =>
    if c = rightBrace ∧ d = rightBrace then
      match lex false [] rest with
      | .error e => .error e
      | .ok items => .ok (Item.action (String.mk acc.reverse) :: items)
    else lex true (c :: acc) (d :: rest)

/-- The words of an action, split at blanks. -/
def words : (cur : List Char) → List Char → List String
  | cur, [] => if cur.isEmpty then [] else [String.mk cur.reverse]
  | cur, c :: rest =>
    if c = ' ' ∨ c = Char.ofNat 9 ∨ c = Char.ofNat 10 ∨ c = Char.ofNat 13 then
      if cur.isEmpty then words [] rest else String.mk cur.reverse :: words [] rest
    else words (c :: cur) rest

/-- The name inside a double-quoted word. -/
def unquote (s : String) : Option String :=
  match s.data with
  | q :: rest =>
    if q = Char.ofNat 34 ∧ rest.getLast? = some (Char.ofNat 34) then
      some (String.mk rest.dropLast)
    else none
  | [] => none

/-- Builds the templates of a text from its items.  `root` is the body of the
text outside any `define` (newest first), `cur` the `define` block being read,
`defs` the blocks already closed.  An action other than `define` and its `end`
becomes an action node. -/
def parseItems : List Item → (root : List Node) → (cur : Option (String × List Node)) →
    (defs : List (String × List Node)) → Except String (List Node × List (String × List Node))
  | [], root, none, defs => .ok (root.reverse, defs)
  | [], _, some _, _ => .error "unexpected EOF"
  | Item.text s :: rest, root, none, defs => parseItems rest (Node.text s :: root) none defs
  | Item.text s :: rest, root, some (n, body), defs =>
    parseItems rest root (some (n, Node.text s :: body)) defs
  | Item.action src :: rest, root, cur, defs =>
    match words [] src.data, cur with
    | ["end"], some (n, body) => parseItems rest root none ((n, body.reverse) :: defs)
    | ["end"], none => .error "unexpected \x7b\x7bend\x7d\x7d"
    | ["define", q], none =>
      match unquote q with
      | some n => parseItems rest root (some (n, [])) defs
      | none => .error "unexpected token in define clause"
    | "define" :: _, _ => .error "unexpected define"
    | _, none => parseItems rest (Node.action src :: root) none defs
    | _, some (n, body) => parseItems rest root (some (n, Node.action src :: body)) defs

namespace Template

/-- The Go method `t.Parse(text)`: the text becomes the body of `t`, and each `define`
block in it a template associated with `t`. -/
def Parse (t : Template) (text : String) : Except String Template :=
  match lex false [] text.data with
  | .error e => .error ("template: " ++ t.name ++ ": " ++ e)
  | .ok items =>
    match parseItems items [] none [] with
    | .error e => .error ("template: " ++ t.name ++ ": " ++ e)
    | .ok (root, defs) => .ok { t with tmpl := defs ++ (t.name, root) :: t.tmpl }

/-- The body of the associated template of a name. -/
def Lookup (t : Template) (name : String) : Option (List Node) :=
  (t.tmpl.find? (fun d => d.1 = name)).map (fun d => d.2)

end Template

/-- What `html/template` adds to the plain template engine, as a parameter:
`escapeText` is the rewriting of static template text decided when the
template is escaped (it elides comments, for one; it sees the template, never
the data), `evalAction` the evaluation of an action against the page data,
contextual escaping of the value included. -/
structure TemplateLib where
  escapeText : String → String
  evalAction : String → graphiqlData → Except String String

/-- The bytes one node sends to the writer. -/
def renderNode (lib : TemplateLib) (d : graphiqlData) : Node → Except String String
  | .text s => .ok (lib.escapeText s)
  | .action src => lib.evalAction src d

/-- Runs the nodes of a template body in order; each sends its bytes with one
`Write`, and the first error stops the run. -/
def execNodes (lib : TemplateLib) (d : graphiqlData) :
    List Node → ResponseWriter → ResponseWriter × Option String
  | [], w => (w, none)
  | n :: ns, w =>
    match renderNode lib d n with
    | .error e => (w, some e)
    | .ok bytes =>
      match w.Write bytes with
      | (w1, some e) => (w1, some e)
      | (w1, none) => execNodes lib d ns w1

/-- The Go method `t.ExecuteTemplate(w, name, d)`: runs the associated template `name` on
the data, streaming to `w`. -/
def ExecuteTemplate (lib : TemplateLib) (t : Template) (w : ResponseWriter) (name : String)
    (d : graphiqlData) : ResponseWriter × Option String :=
  match t.Lookup name with
  | none => (w, some ("html/template: \x22" ++ name ++ "\x22 is undefined"))
  | some nodes => execNodes lib d nodes w

/-! ## The static text of a page, as `html/template` sends it

When a template is first executed, `html/template` walks its static text through
the contexts of an HTML page and rewrites it: comments are elided, and a `<`
that opens no tag becomes `&lt;`.  The model follows the states of the escaper
for the constructs of a static page: tags and quoted attribute values, the text
elements `title` and `textarea`, `script` and `style` content with their
strings and comments.  Regular expression literals, HTML-style comments inside
a script, and nested template literals are not told apart from code. -/

/-- The elements whose content is not HTML text. -/
inductive Element where
  | none
  | script
  | style
  | textarea
  | title
deriving DecidableEq

/-- The context of the escaper at a point of the text. -/
inductive State where
  | text
  | htmlCmt
  | tag (el : Element)
  | attr (el : Element) (q : Char)
  | rcdata (el : Element)
  | js
  | jsStr (q : Char)
  | jsLineCmt
  | jsBlockCmt (sawLine : Bool)
  | css
  | cssStr (q : Char)
  | cssLineCmt
  | cssBlockCmt

/-- An ASCII letter. -/
def asciiAlpha (c : Char) : Bool :=
  (65 ≤ c.toNat && c.toNat ≤ 90) || (97 ≤ c.toNat && c.toNat ≤ 122)

/-- An ASCII letter or digit. -/
def asciiAlphaNum (c : Char) : Bool :=
  asciiAlpha c || (48 ≤ c.toNat && c.toNat ≤ 57)

/-- The lower-case form of an ASCII letter. -/
def lower (c : Char) : Char :=
  if 65 ≤ c.toNat ∧ c.toNat ≤ 90 then Char.ofNat (c.toNat + 32) else c

/-- The rest of a tag name after its first letter: letters and digits, and a
colon or dash when a letter or digit follows it. -/
def tagNameRest : List Char → List Char
  | [] => []
  | [x] => if asciiAlphaNum x then [x] else []
  | x :: y :: rest =>
    if asciiAlphaNum x then x :: tagNameRest (y :: rest)
    else if (x = ':' ∨ x = '-') ∧ asciiAlphaNum y = true then x :: y :: tagNameRest rest
    else []

/-- The element of a tag name. -/
def elementOf (name : List Char) : Element :=
  let n := String.mk (name.map lower)
  if n = "script" then .script
  else if n = "style" then .style
  else if n = "textarea" then .textarea
  else if n = "title" then .title
  else .none

/-- The name that closes the content of an element. -/
def endTagName : Element → String
  | .none => ""
  | .script => "script"
  | .style => "style"
  | .textarea => "textarea"
  | .title => "title"

/-- Whether the text after a `<` is the end tag of the element: a slash, the
name in either case, and a character that ends a tag name. -/
def closes (el : Element) (rest : List Char) : Bool :=
  match rest with
  | '/' :: r =>
    let name := (endTagName el).data
    (r.take name.length).map lower == name &&
      match r.drop name.length with
      | x :: _ => x = '>' ∨ x = ' ' ∨ x = Char.ofNat 9 ∨ x = Char.ofNat 10 ∨
          x = Char.ofNat 12 ∨ x = '/'
      | [] => false
  | _ => false

/-- The context after the `>` that ends a start tag. -/
def contentState : Element → State
  | .none => .text
  | .script => .js
  | .style => .css
  | .textarea => .rcdata .textarea
  | .title => .rcdata .title

/-- A line terminator of JavaScript. -/
def jsLineEnd (c : Char) : Bool :=
  c = Char.ofNat 10 ∨ c = Char.ofNat 13 ∨ c = Char.ofNat 8232 ∨ c = Char.ofNat 8233

/-- What the escaper does with a `<` in HTML text, given the text after it: it
opens a comment, opens a tag, belongs to a doctype, or is escaped. -/
def openAngle (rest : List Char) : State × Nat × Bool × List Char :=
  if "!--".data.isPrefixOf rest then (.htmlCmt, 3, false, [])
  else
    let isEnd := "/".data.isPrefixOf rest
    let name := if isEnd then rest.drop 1 else rest
    match name with
    | x :: more =>
      if asciiAlpha x then
        (.tag (if isEnd then .none else elementOf (x :: tagNameRest more)), 0, true, ['<'])
      else if ((rest.take 8).map lower) = "!doctype".data then (.text, 0, true, ['<'])
      else (.text, 0, true, "&lt;".data)
    | [] => (.text, 0, true, "&lt;".data)

/-- One step of the escaper: from the context, the character read and the text
after it, the next context, the number of following characters that belong to
the same token, whether those are kept, and the output for the character. -/
def step (st : State) (c : Char) (rest : List Char) : State × Nat × Bool × List Char :=
  match st with
  | .text => if c = '<' then openAngle rest else (.text, 0, true, [c])
  | .htmlCmt => if c = '-' ∧ "->".data.isPrefixOf rest then (.text, 2, false, [])
      else (.htmlCmt, 0, true, [])
  | .tag el =>
    if c = '>' then (contentState el, 0, true, [c])
    else if c = Char.ofNat 34 ∨ c = Char.ofNat 39 then (.attr el c, 0, true, [c])
    else (.tag el, 0, true, [c])
  | .attr el q => if c = q then (.tag el, 0, true, [c]) else (.attr el q, 0, true, [c])
  | .rcdata el =>
    if c = '<' then
      if closes el rest then (.tag .none, 0, true, [c]) else (.rcdata el, 0, true, "&lt;".data)
    else (.rcdata el, 0, true, [c])
  | .js =>
    if c = '<' ∧ closes .script rest then (.tag .none, 0, true, [c])
    else if c = Char.ofNat 34 ∨ c = Char.ofNat 39 ∨ c = Char.ofNat 96 then (.jsStr c, 0, true, [c])
    else if c = '/' ∧ "/".data.isPrefixOf rest then (.jsLineCmt, 1, false, [])
    else if c = '/' ∧ "*".data.isPrefixOf rest then (.jsBlockCmt false, 1, false, [])
    else (.js, 0, true, [c])
  | .jsStr q =>
    if c = Char.ofNat 92 then (.jsStr q, 1, true, [c])
    else if c = q then (.js, 0, true, [c])
    else (.jsStr q, 0, true, [c])
  | .jsLineCmt => if jsLineEnd c then (.js, 0, true, [c]) else (.jsLineCmt, 0, true, [])
  | .jsBlockCmt sawLine =>
    if c = '*' ∧ "/".data.isPrefixOf rest then
      (.js, 1, false, [if sawLine then Char.ofNat 10 else ' '])
    else (.jsBlockCmt (sawLine || jsLineEnd c), 0, true, [])
  | .css =>
    if c = '<' ∧ closes .style rest then (.tag .none, 0, true, [c])
    else if c = Char.ofNat 34 ∨ c = Char.ofNat 39 then (.cssStr c, 0, true, [c])
    else if c = '/' ∧ "/".data.isPrefixOf rest then (.cssLineCmt, 1, false, [])
    else if c = '/' ∧ "*".data.isPrefixOf rest then (.cssBlockCmt, 1, false, [])
    else (.css, 0, true, [c])
  | .cssStr q =>
    if c = Char.ofNat 92 then (.cssStr q, 1, true, [c])
    else if c = q then (.css, 0, true, [c])
    else (.cssStr q, 0, true, [c])
  | .cssLineCmt =>
    if c = Char.ofNat 10 ∨ c = Char.ofNat 12 ∨ c = Char.ofNat 13 then (.css, 0, true, [c])
    else (.cssLineCmt, 0, true, [])
  | .cssBlockCmt =>
    if c = '*' ∧ "/".data.isPrefixOf rest then (.css, 1, false, [' '])
    else (.cssBlockCmt, 0, true, [])

/-- The escaper run over a text: `hold` characters still belong to the token
just read, and are kept or dropped as `keep` says; after them each character
takes one step. -/
def escapeChars : State → (hold : Nat) → (keep : Bool) → List Char → List Char
  | _, _, _, [] => []
  | st, hold + 1, keep, c :: cs =>
    if keep then c :: escapeChars st hold keep cs else escapeChars st hold keep cs
  | st, 0, _, c :: cs =>
    (step st c cs).2.2.2 ++
      escapeChars (step st c cs).1 (step st c cs).2.1 (step st c cs).2.2.1 cs

/-- The static text of a template as `html/template` sends it, from the HTML text
context in which a template starts. -/
def escapeText (s : String) : String :=
  String.mk (escapeChars .text 0 true s.data)

/-- The template library with the static text rewriting of `html/template`; the
evaluation of actions stays a parameter. -/
def htmlTemplate (evalAction : String → graphiqlData → Except String String) : TemplateLib :=
  { escapeText := escapeText, evalAction := evalAction }

/-! ## The template text -/

/-- The body of the `index` template: the text of `graphiqlTemplate` between
`define "index"` and its `end`, line by line. -/
def indexBody : String :=
  List.foldr (fun line rest => line ++ rest) ""
    [ "\n"
    , "<!--\n"
    , "The request to this GraphQL server provided the header \x22Accept: text/html\x22\n"
    , "and as a result has been presented GraphiQL - an in-browser IDE for\n"
    , "exploring GraphQL.\n"
    , "\n"
    , "If you wish to receive JSON, provide the header \x22Accept: application/json\x22 or\n"
    , "add \x22&raw\x22 to the end of the URL within a browser.\n"
    , "-->\n"
    , "<!--\n"
    , " *  Copyright (c) 2021 GraphQL Contributors\n"
    , " *  All rights reserved.\n"
    , " *\n"
    , " *  This source code is licensed under the license found in the\n"
    , " *  LICENSE file in the root directory of this source tree.\n"
    , "-->\n"
    , "<!doctype html>\n"
    , "<html lang=\x22en\x22>\n"
    , "  <head>\n"
    , "    <title>GraphiQL</title>\n"
    , "    <style>\n"
    , "      body \x7b\n"
    , "        height: 100%;\n"
    , "        margin: 0;\n"
    , "        width: 100%;\n"
    , "        overflow: hidden;\n"
    , "      \x7d\n"
    , "\n"
    , "      #graphiql \x7b\n"
    , "        height: 100vh;\n"
    , "      \x7d\n"
    , "    </style>\n"
    , "    <!--\n"
    , "      This GraphiQL example depends on Promise and fetch, which are available in\n"
    , "      modern browsers, but can be \x22polyfilled\x22 for older browsers.\n"
    , "      GraphiQL itself depends on React DOM.\n"
    , "      If you do not want to rely on a CDN, you can host these files locally or\n"
    , "      include them directly in your favored resource bundler.\n"
    , "    -->\n"
    , "    <script\n"
    , "      crossorigin\n"
    , "      src=\x22https://unpkg.com/react@18/umd/react.development.js\x22\n"
    , "    ></script>\n"
    , "    <script\n"
    , "      crossorigin\n"
    , "      src=\x22https://unpkg.com/react-dom@18/umd/react-dom.development.js\x22\n"
    , "    ></script>\n"
    , "    <!--\n"
    , "      These two files can be found in the npm module, however you may wish to\n"
    , "      copy them directly into your environment, or perhaps include them in your\n"
    , "      favored resource bundler.\n"
    , "     -->\n"
    , "    <script\n"
    , "      src=\x22https://unpkg.com/graphiql@3.2.2/graphiql.min.js\x22\n"
    , "      type=\x22application/javascript\x22\n"
    , "    ></script>\n"
    , "    <link rel=\x22stylesheet\x22 href=\x22https://unpkg.com/graphiql/graphiql.min.css\x22 />\n"
    , "    <!--\n"
    , "      These are imports for the GraphIQL Explorer plugin.\n"
    , "     -->\n"
    , "    <script\n"
    , "      src=\x22https://unpkg.com/@graphiql/plugin-explorer/dist/index.umd.js\x22\n"
    , "      crossorigin\n"
    , "    ></script>\n"
    , "\n"
    , "    <link\n"
    , "      rel=\x22stylesheet\x22\n"
    , "      href=\x22https://unpkg.com/@graphiql/plugin-explorer/dist/style.css\x22\n"
    , "    />\n"
    , "  </head>\n"
    , "\n"
    , "  <body>\n"
    , "    <div id=\x22graphiql\x22>Loading...</div>\n"
    , "    <script>\n"
    , "    const root = ReactDOM.createRoot(document.getElementById(\x27graphiql\x27));\n"
    , "    \n"
    , "    // Function to parse query string parameters\n"
    , "    function getQueryStringParams() \x7b\n"
    , "      const params = \x7b\x7d;\n"
    , "      window.location.search.substr(1).split(\x27&\x27).forEach(function(entry) \x7b\n"
    , "        const eq = entry.indexOf(\x27=\x27);\n"
    , "        if (eq >= 0) \x7b\n"
    , "          params[decodeURIComponent(entry.slice(0, eq))] = decodeURIComponent(entry.slice(eq + 1));\n"
    , "        \x7d\n"
    , "      \x7d);\n"
    , "      return params;\n"
    , "    \x7d\n"
    , "  \n"
    , "    // Get the query string parameters\n"
    , "    const queryParams = getQueryStringParams();\n"
    , "    \n"
    , "    // Construct the fetch URL without any GraphQL-specific parameters\n"
    , "    const baseUrl = window.location.origin + window.location.pathname;\n"
    , "    const fetcher = GraphiQL.createFetcher(\x7b\n"
    , "      url: baseUrl,\n"
    , "      headers: \x7b \x27X-Example-Header\x27: \x27foo\x27 \x7d, // Keep or modify headers as needed\n"
    , "    \x7d);\n"
    , "  \n"
    , "    const explorerPlugin = GraphiQLPluginExplorer.explorerPlugin();\n"
    , "    root.render(\n"
    , "      React.createElement(GraphiQL, \x7b\n"
    , "        fetcher,\n"
    , "        defaultEditorToolsVisibility: true,\n"
    , "        plugins: [explorerPlugin],\n"
    , "        query: queryParams[\x27query\x27], // Preload the query from the URL\n"
    , "        variables: queryParams[\x27variables\x27], // Preload the variables from the URL if any\n"
    , "        operationName: queryParams[\x27operationName\x27], // Preload the operation name from the URL if any\n"
    , "      \x7d),\n"
    , "    );\n"
    , "  </script>\n"
    , "  \n"
    , "  </body>\n"
    , "</html>\n" ]

/-- The page template to render GraphiQL. -/
def graphiqlTemplate : String :=
  "\n\x7b\x7b define \x22index\x22 \x7d\x7d" ++ indexBody ++ "\x7b\x7b end \x7d\x7d\n"

/-! ## The renderer -/

/-- A call that leaves the package. -/
inductive Call where
  | Do (params : Params)
  | ExecuteTemplate (name : String) (d : graphiqlData)
  | Error (error : String) (code : Nat)

/-- What one run of the renderer leaves behind: the response writer, and the
calls it made, in order. -/
structure Outcome where
  w : ResponseWriter
  trace : List Call

/-- The error exit of `renderGraphiQL`: `http.Error` with the error text and status 500,
then `return`. -/
def abort (w : ResponseWriter) (err : String) (trace : List Call) : Outcome :=
  { w := Error w err StatusInternalServerError
    trace := trace ++ [Call.Error err StatusInternalServerError] }

/-- The end of `renderGraphiQL`: the page data is assembled and the `index` template is
executed on it; an error of the execution is reported with `http.Error`. -/
def emit (lib : TemplateLib) (t : Template) (w : ResponseWriter) (params : Params)
    (varsString resString : String) (trace : List Call) : Outcome :=
  let d : graphiqlData :=
    { GraphiqlVersion := graphiqlVersion
      QueryString := params.RequestString
      ResultString := resString
      VariablesString := varsString
      OperationName := params.OperationName }
  match ExecuteTemplate lib t w "index" d with
  | (w1, some err) => abort w1 err (trace ++ [Call.ExecuteTemplate "index" d])
  | (w1, none) => { w := w1, trace := trace ++ [Call.ExecuteTemplate "index" d] }

/-- The function `renderGraphiQL` renders the GraphiQL GUI.  `Do` is the execution engine `graphql.Do`. -/
def renderGraphiQL (lib : TemplateLib) (Do : Params → Value) (w : ResponseWriter)
    (params : Params) : Outcome :=
  match (New "GraphiQL").Parse graphiqlTemplate with
  | .error err => abort w err []
  | .ok t =>
    -- Create variables string
    match MarshalIndent (mapValue params.VariableValues) "" "  " with
    | .error err => abort w err []
    | .ok vars =>
      let varsString := if vars = "null" then "" else vars
      -- Create result string
      if params.RequestString = "" then
        emit lib t w params varsString "" []
      else
        match MarshalIndent (Do params) "" "  " with
        | .error err => abort w err [Call.Do params]
        | .ok result => emit lib t w params varsString result [Call.Do params]

/-- The template set that parsing `graphiqlTemplate` yields. -/
def parsedTemplate : Template :=
  { name := "GraphiQL"
    tmpl := [("index", [Node.text indexBody]), ("GraphiQL", [Node.text "\n", Node.text "\n"])] }

/-- The page: what the `index` template sends, its only node being static text. -/
def indexPage (lib : TemplateLib) : String := lib.escapeText indexBody

/-- The page data that `renderGraphiQL` assembles from the request and the two
serialized texts. -/
def pageOf (params : Params) (varsString resString : String) : graphiqlData :=
  { GraphiqlVersion := graphiqlVersion
    QueryString := params.RequestString
    ResultString := resString
    VariablesString := varsString
    OperationName := params.OperationName }

/-! ## Observations on a run -/

/-- The arguments of the calls of the engine, in order. -/
def engineCalls (trace : List Call) : List Params :=
  trace.filterMap fun c => match c with
    | .Do p => some p
    | _ => none

/-- The page data of the template executions, in order. -/
def pageData (trace : List Call) : List graphiqlData :=
  trace.filterMap fun c => match c with
    | .ExecuteTemplate _ d => some d
    | _ => none

/-- The error responses (`http.Error`), in order: message and status code. -/
def errorResponses (trace : List Call) : List (String × Nat) :=
  trace.filterMap fun c => match c with
    | .Error e code => some (e, code)
    | _ => none

/-- The part of a chunk that the connection takes when it has `sofar` already. -/
def ResponseWriter.accepted (w : ResponseWriter) (sofar p : String) : String :=
  match w.conn sofar p with
  | none => p
  | some (n, _) => String.mk (p.data.take n)

/-- The text `pat` occurs in `s`. -/
def occursIn (pat s : String) : Prop := pat.data <:+: s.data

/-- Whether the characters `pat` occur, in a row, among the characters given. -/
def hasSub (pat : List Char) : List Char → Bool
  | [] => pat.isEmpty
  | c :: cs => pat.isPrefixOf (c :: cs) || hasSub pat cs

/-- The display form of the serialized variables: the text `null` becomes empty. -/
def normalize (vars : String) : String := if vars = "null" then "" else vars

/-! ## Concrete inputs -/

/-- A connection that takes every chunk. -/
def okConn : String → String → Option (Nat × String) := fun _ _ => none

/-- A connection that breaks after five bytes of the first chunk and takes every
later chunk. -/
def brokenConn : String → String → Option (Nat × String) :=
  fun sofar _ => if sofar = "" then some (5, "write tcp: broken pipe") else none

/-- A response writer to which nothing was written yet. -/
def fresh (conn : String → String → Option (Nat × String)) : ResponseWriter :=
  { header := [], wroteHeader := false, status := 0, body := "", conn := conn }

/-- A template library that leaves static text as it is. -/
def plainLib : TemplateLib :=
  { escapeText := fun s => s, evalAction := fun _ _ => .ok "" }

/-- An engine whose result is the object with `data.__typename` set to `Query`. -/
def typenameEngine : Params → Value :=
  fun _ => .obj [("data", .obj [("__typename", .str "Query")])]

/-- An engine whose result holds a value the encoder rejects. -/
def channelEngine : Params → Value :=
  fun _ => .obj [("data", .unsupported "chan int")]

/-- Scenario A: no query, an empty (present) variables map, no operation name. -/
def scenarioA : Params :=
  { RequestString := "", VariableValues := some [], OperationName := "" }

/-- Scenario B: the query `__typename`, no variables. -/
def scenarioB : Params :=
  { RequestString := "\x7b __typename \x7d", VariableValues := none, OperationName := "" }

/-- A request whose variables hold a channel. -/
def channelVars : Params :=
  { RequestString := "\x7b __typename \x7d"
    VariableValues := some [("c", .unsupported "chan int")]
    OperationName := "" }

/-- The script injection payload. -/
def payload : String := "</script><script>alert(1)</script>"

/-- A request whose query is the payload. -/
def injection : Params :=
  { RequestString := "query \x7b a \x7d # </script><script>alert(1)</script>"
    VariableValues := none
    OperationName := "" }

deriving instance DecidableEq for Except

/-! ## Occurrences of a text -/

theorem hasSub_iff (pat : List Char) : ∀ s : List Char, hasSub pat s = true ↔ pat <:+: s
  | [] => by simp [hasSub, List.isEmpty_iff]
  | c :: cs => by
    simp only [hasSub, Bool.or_eq_true, hasSub_iff pat cs, List.infix_cons_iff,
      List.isPrefixOf_iff_prefix]

theorem occursIn_of_hasSub (pat s : String) (h : hasSub pat.data s.data = true) :
    occursIn pat s :=
  (hasSub_iff pat.data s.data).mp h

theorem not_occursIn_of_hasSub (pat s : String) (h : hasSub pat.data s.data = false) :
    ¬ occursIn pat s := by
  intro hc
  rw [(hasSub_iff pat.data s.data).mpr hc] at h
  cases h

/-! ## The template -/

theorem Parse_graphiqlTemplate :
    (New "GraphiQL").Parse graphiqlTemplate = .ok parsedTemplate := by
  decide!

theorem Lookup_index : parsedTemplate.Lookup "index" = some [Node.text indexBody] := by
  simp [parsedTemplate, Template.Lookup, List.find?]

theorem ExecuteTemplate_index (lib : TemplateLib) (w : ResponseWriter) (d : graphiqlData) :
    ExecuteTemplate lib parsedTemplate w "index" d = w.Write (indexPage lib) := by
  unfold ExecuteTemplate
  rw [Lookup_index]
  simp only [execNodes, renderNode, indexPage]
  rcases h : w.Write (lib.escapeText indexBody) with ⟨w1, _ | e⟩ <;> rfl

/-! ## The response writer -/

theorem Write_body (w : ResponseWriter) (p : String) :
    (w.Write p).1.body = w.body ++ w.accepted w.body p := by
  unfold ResponseWriter.Write ResponseWriter.accepted ResponseWriter.WriteHeader
  by_cases hw : w.wroteHeader <;> simp [hw] <;>
    rcases h : w.conn w.body p with _ | ⟨n, e⟩ <;> simp

theorem Write_status (w : ResponseWriter) (p : String) (h : w.wroteHeader = false) :
    (w.Write p).1.status = StatusOK ∧ (w.Write p).1.wroteHeader = true := by
  unfold ResponseWriter.Write ResponseWriter.WriteHeader
  simp [h]
  rcases h : w.conn w.body p with _ | ⟨n, e⟩ <;> simp

theorem Write_conn (w : ResponseWriter) (p : String) : (w.Write p).1.conn = w.conn := by
  unfold ResponseWriter.Write ResponseWriter.WriteHeader
  by_cases hw : w.wroteHeader <;> simp [hw] <;>
    rcases h : w.conn w.body p with _ | ⟨n, e⟩ <;> simp

theorem Write_error (w : ResponseWriter) (p : String) :
    (w.Write p).2 = (w.conn w.body p).map (fun r => r.2) := by
  unfold ResponseWriter.Write ResponseWriter.WriteHeader
  by_cases hw : w.wroteHeader <;> simp [hw] <;>
    rcases h : w.conn w.body p with _ | ⟨n, e⟩ <;> simp

theorem Error_body (w : ResponseWriter) (e : String) (code : Nat) :
    (Error w e code).body = w.body ++ w.accepted w.body (e ++ "\n") := by
  unfold Error
  rw [Write_body]
  unfold ResponseWriter.WriteHeader ResponseWriter.setHeader ResponseWriter.accepted
  by_cases hw : w.wroteHeader <;> simp [hw]

theorem Error_status_fresh (w : ResponseWriter) (e : String) (code : Nat)
    (h : w.wroteHeader = false) : (Error w e code).status = code := by
  unfold Error ResponseWriter.Write ResponseWriter.WriteHeader ResponseWriter.setHeader
  simp [h]
  split <;> simp

theorem Error_status_sent (w : ResponseWriter) (e : String) (code : Nat)
    (h : w.wroteHeader = true) : (Error w e code).status = w.status := by
  unfold Error ResponseWriter.Write ResponseWriter.WriteHeader ResponseWriter.setHeader
  simp [h]
  split <;> simp

/-! ## The encoder's errors -/

mutual
theorem encode_error (pre indent : String) (depth : Nat) :
    ∀ (v : Value) (e : String), encode pre indent depth v = .error e →
      ∃ typ, e = "json: unsupported type: " ++ typ
  | .null, e, h => by simp [encode] at h
  | .bool true, e, h => by simp [encode] at h
  | .bool false, e, h => by simp [encode] at h
  | .int n, e, h => by simp [encode] at h
  | .str s, e, h => by simp [encode] at h
  | .arr [], e, h => by simp [encode] at h
  | .arr (x :: xs), e, h => by
    simp only [encode] at h
    cases hx : encodeElems pre indent (depth + 1) (x :: xs) with
    | error e1 =>
      rw [hx] at h
      cases h
      exact encodeElems_error pre indent (depth + 1) (x :: xs) e hx
    | ok s => rw [hx] at h; cases h
  | .obj [], e, h => by simp [encode] at h
  | .obj (m :: ms), e, h => by
    simp only [encode] at h
    cases hx : encodeMembers pre indent (depth + 1) (m :: ms) with
    | error e1 =>
      rw [hx] at h
      cases h
      exact encodeMembers_error pre indent (depth + 1) (m :: ms) e hx
    | ok s => rw [hx] at h; cases h
  | .unsupported typ, e, h => by
    simp only [encode] at h
    cases h
    exact ⟨typ, rfl⟩
theorem encodeElems_error (pre indent : String) (depth : Nat) :
    ∀ (xs : List Value) (e : String), encodeElems pre indent depth xs = .error e →
      ∃ typ, e = "json: unsupported type: " ++ typ
  | [], e, h => by simp [encodeElems] at h
  | [x], e, h => by
    simp only [encodeElems] at h
    exact encode_error pre indent depth x e h
  | x :: y :: rest, e, h => by
    simp only [encodeElems] at h
    cases hx : encode pre indent depth x with
    | error e1 =>
      rw [hx] at h
      cases h
      exact encode_error pre indent depth x e hx
    | ok s =>
      rw [hx] at h
      cases hy : encodeElems pre indent depth (y :: rest) with
      | error e2 =>
        rw [hy] at h
        cases h
        exact encodeElems_error pre indent depth (y :: rest) e hy
      | ok t => rw [hy] at h; cases h
theorem encodeMembers_error (pre indent : String) (depth : Nat) :
    ∀ (ms : List (String × Value)) (e : String), encodeMembers pre indent depth ms = .error e →
      ∃ typ, e = "json: unsupported type: " ++ typ
  | [], e, h => by simp [encodeMembers] at h
  | [(k, v)], e, h => by
    simp only [encodeMembers] at h
    cases hx : encode pre indent depth v with
    | error e1 =>
      rw [hx] at h
      cases h
      exact encode_error pre indent depth v e hx
    | ok s => rw [hx] at h; cases h
  | (k, v) :: m :: rest, e, h => by
    simp only [encodeMembers] at h
    cases hx : encode pre indent depth v with
    | error e1 =>
      rw [hx] at h
      cases h
      exact encode_error pre indent depth v e hx
    | ok s =>
      rw [hx] at h
      cases hy : encodeMembers pre indent depth (m :: rest) with
      | error e2 =>
        rw [hy] at h
        cases h
        exact encodeMembers_error pre indent depth (m :: rest) e hy
      | ok t => rw [hy] at h; cases h
end

theorem MarshalIndent_error_ne_empty (v : Value) (pre indent e : String)
    (h : MarshalIndent v pre indent = .error e) : e ≠ "" := by
  obtain ⟨typ, rfl⟩ := encode_error pre indent 0 v e h
  intro hc
  have := congrArg String.length hc
  rw [String.length_append] at this
  have h1 : "json: unsupported type: ".length = 24 := by decide
  have h2 : "".length = 0 := by decide
  omega

/-! ## The renderer, path by path -/

theorem renderGraphiQL_eq (lib : TemplateLib) (Do : Params → Value) (w : ResponseWriter)
    (params : Params) :
    renderGraphiQL lib Do w params =
      match MarshalIndent (mapValue params.VariableValues) "" "  " with
      | .error err => abort w err []
      | .ok vars =>
        if params.RequestString = "" then
          emit lib parsedTemplate w params (normalize vars) "" []
        else
          match MarshalIndent (Do params) "" "  " with
          | .error err => abort w err [Call.Do params]
          | .ok result => emit lib parsedTemplate w params (normalize vars) result [Call.Do params] := by
  unfold renderGraphiQL
  rw [Parse_graphiqlTemplate]
  rfl

theorem render_vars_error (lib : TemplateLib) (Do : Params → Value) (w : ResponseWriter)
    (params : Params) (e : String)
    (hv : MarshalIndent (mapValue params.VariableValues) "" "  " = .error e) :
    renderGraphiQL lib Do w params = abort w e [] := by
  rw [renderGraphiQL_eq, hv]

theorem render_empty (lib : TemplateLib) (Do : Params → Value) (w : ResponseWriter)
    (params : Params) (v : String)
    (hv : MarshalIndent (mapValue params.VariableValues) "" "  " = .ok v)
    (hq : params.RequestString = "") :
    renderGraphiQL lib Do w params = emit lib parsedTemplate w params (normalize v) "" [] := by
  rw [renderGraphiQL_eq, hv]
  simp [hq]

theorem render_result_error (lib : TemplateLib) (Do : Params → Value) (w : ResponseWriter)
    (params : Params) (v e : String)
    (hv : MarshalIndent (mapValue params.VariableValues) "" "  " = .ok v)
    (hq : params.RequestString ≠ "")
    (hr : MarshalIndent (Do params) "" "  " = .error e) :
    renderGraphiQL lib Do w params = abort w e [Call.Do params] := by
  rw [renderGraphiQL_eq, hv]
  simp [hq, hr]

theorem render_result_ok (lib : TemplateLib) (Do : Params → Value) (w : ResponseWriter)
    (params : Params) (v r : String)
    (hv : MarshalIndent (mapValue params.VariableValues) "" "  " = .ok v)
    (hq : params.RequestString ≠ "")
    (hr : MarshalIndent (Do params) "" "  " = .ok r) :
    renderGraphiQL lib Do w params =
      emit lib parsedTemplate w params (normalize v) r [Call.Do params] := by
  rw [renderGraphiQL_eq, hv]
  simp [hq, hr]

theorem emit_ok (lib : TemplateLib) (w : ResponseWriter) (params : Params)
    (vs rs : String) (tr : List Call) (h : w.conn w.body (indexPage lib) = none) :
    emit lib parsedTemplate w params vs rs tr =
      { w := (w.Write (indexPage lib)).1
        trace := tr ++ [Call.ExecuteTemplate "index" (pageOf params vs rs)] } := by
  unfold emit
  simp only [ExecuteTemplate_index]
  have he := Write_error w (indexPage lib)
  rw [h] at he
  rcases hW : w.Write (indexPage lib) with ⟨w1, _ | e⟩
  · rfl
  · rw [hW] at he; simp at he

theorem emit_fail (lib : TemplateLib) (w : ResponseWriter) (params : Params)
    (vs rs : String) (tr : List Call) (n : Nat) (e : String)
    (h : w.conn w.body (indexPage lib) = some (n, e)) :
    emit lib parsedTemplate w params vs rs tr =
      abort (w.Write (indexPage lib)).1 e
        (tr ++ [Call.ExecuteTemplate "index" (pageOf params vs rs)]) := by
  unfold emit
  simp only [ExecuteTemplate_index]
  have he := Write_error w (indexPage lib)
  rw [h] at he
  rcases hW : w.Write (indexPage lib) with ⟨w1, _ | e1⟩
  · rw [hW] at he; simp at he
  · rw [hW] at he
    simp at he
    subst he
    rfl

theorem engineCalls_abort (w : ResponseWriter) (e : String) (tr : List Call) :
    engineCalls (abort w e tr).trace = engineCalls tr := by
  simp [abort, engineCalls, List.filterMap_append]

theorem pageData_abort (w : ResponseWriter) (e : String) (tr : List Call) :
    pageData (abort w e tr).trace = pageData tr := by
  simp [abort, pageData, List.filterMap_append]

theorem errorResponses_abort (w : ResponseWriter) (e : String) (tr : List Call) :
    errorResponses (abort w e tr).trace = errorResponses tr ++ [(e, StatusInternalServerError)] := by
  simp [abort, errorResponses, List.filterMap_append]

theorem engineCalls_emit (lib : TemplateLib) (w : ResponseWriter) (params : Params)
    (vs rs : String) (tr : List Call) :
    engineCalls (emit lib parsedTemplate w params vs rs tr).trace = engineCalls tr := by
  rcases h : w.conn w.body (indexPage lib) with _ | ⟨n, e⟩
  · rw [emit_ok _ _ _ _ _ _ h]; simp [engineCalls, List.filterMap_append]
  · rw [emit_fail _ _ _ _ _ _ _ _ h, engineCalls_abort]; simp [engineCalls, List.filterMap_append]

theorem pageData_emit (lib : TemplateLib) (w : ResponseWriter) (params : Params)
    (vs rs : String) (tr : List Call) :
    pageData (emit lib parsedTemplate w params vs rs tr).trace =
      pageData tr ++ [pageOf params vs rs] := by
  rcases h : w.conn w.body (indexPage lib) with _ | ⟨n, e⟩
  · rw [emit_ok _ _ _ _ _ _ h]; simp [pageData, List.filterMap_append]
  · rw [emit_fail _ _ _ _ _ _ _ _ h, pageData_abort]; simp [pageData, List.filterMap_append]

theorem emit_status (lib : TemplateLib) (w : ResponseWriter) (params : Params)
    (vs rs : String) (tr : List Call) (hw : w.wroteHeader = false) :
    (emit lib parsedTemplate w params vs rs tr).w.status = StatusOK := by
  have hs := Write_status w (indexPage lib) hw
  rcases h : w.conn w.body (indexPage lib) with _ | ⟨n, e⟩
  · rw [emit_ok _ _ _ _ _ _ h]; exact hs.1
  · rw [emit_fail _ _ _ _ _ _ _ _ h]
    simp only [abort]
    rw [Error_status_sent _ _ _ hs.2]
    exact hs.1

theorem emit_ok_body (lib : TemplateLib) (w : ResponseWriter) (params : Params)
    (vs rs : String) (tr : List Call) (h : w.conn w.body (indexPage lib) = none) :
    (emit lib parsedTemplate w params vs rs tr).w.body = w.body ++ indexPage lib := by
  rw [emit_ok _ _ _ _ _ _ h]
  simp only
  rw [Write_body]
  simp [ResponseWriter.accepted, h]

theorem emit_fail_body (lib : TemplateLib) (w : ResponseWriter) (params : Params)
    (vs rs : String) (tr : List Call) (n : Nat) (e : String)
    (h : w.conn w.body (indexPage lib) = some (n, e)) :
    (emit lib parsedTemplate w params vs rs tr).w.body =
      w.body ++ String.mk ((indexPage lib).data.take n) ++
        w.accepted (w.body ++ String.mk ((indexPage lib).data.take n)) (e ++ "\n") := by
  rw [emit_fail _ _ _ _ _ _ _ _ h]
  simp only [abort]
  rw [Error_body, Write_body]
  simp [ResponseWriter.accepted, h, Write_conn]

theorem errorResponses_emit_ok (lib : TemplateLib) (w : ResponseWriter) (params : Params)
    (vs rs : String) (tr : List Call) (h : w.conn w.body (indexPage lib) = none) :
    errorResponses (emit lib parsedTemplate w params vs rs tr).trace = errorResponses tr := by
  rw [emit_ok _ _ _ _ _ _ h]; simp [errorResponses, List.filterMap_append]

theorem errorResponses_emit_fail (lib : TemplateLib) (w : ResponseWriter) (params : Params)
    (vs rs : String) (tr : List Call) (n : Nat) (e : String)
    (h : w.conn w.body (indexPage lib) = some (n, e)) :
    errorResponses (emit lib parsedTemplate w params vs rs tr).trace =
      errorResponses tr ++ [(e, StatusInternalServerError)] := by
  rw [emit_fail _ _ _ _ _ _ _ _ h, errorResponses_abort]
  simp [errorResponses, List.filterMap_append]

theorem render_cases (lib : TemplateLib) (Do : Params → Value)
    (w : ResponseWriter) (params : Params) :
    (errorResponses (renderGraphiQL lib Do w params).trace = [] ∧
      (pageData (renderGraphiQL lib Do w params).trace).length = 1 ∧
      (renderGraphiQL lib Do w params).w.body = w.body ++ indexPage lib) ∨
    (pageData (renderGraphiQL lib Do w params).trace = [] ∧
      ∃ e, errorResponses (renderGraphiQL lib Do w params).trace = [(e, 500)] ∧
        (renderGraphiQL lib Do w params).w.body = w.body ++ w.accepted w.body (e ++ "\n")) ∨
    ((pageData (renderGraphiQL lib Do w params).trace).length = 1 ∧
      ∃ n e, w.conn w.body (indexPage lib) = some (n, e) ∧
        errorResponses (renderGraphiQL lib Do w params).trace = [(e, 500)] ∧
        (renderGraphiQL lib Do w params).w.body =
          w.body ++ String.mk ((indexPage lib).data.take n) ++
            w.accepted (w.body ++ String.mk ((indexPage lib).data.take n)) (e ++ "\n")) := by
  have hemit : ∀ (vs rs : String) (tr : List Call), pageData tr = [] → errorResponses tr = [] →
      (errorResponses (emit lib parsedTemplate w params vs rs tr).trace = [] ∧
        (pageData (emit lib parsedTemplate w params vs rs tr).trace).length = 1 ∧
        (emit lib parsedTemplate w params vs rs tr).w.body = w.body ++ indexPage lib) ∨
      ((pageData (emit lib parsedTemplate w params vs rs tr).trace).length = 1 ∧
        ∃ n e, w.conn w.body (indexPage lib) = some (n, e) ∧
          errorResponses (emit lib parsedTemplate w params vs rs tr).trace = [(e, 500)] ∧
          (emit lib parsedTemplate w params vs rs tr).w.body =
            w.body ++ String.mk ((indexPage lib).data.take n) ++
              w.accepted (w.body ++ String.mk ((indexPage lib).data.take n)) (e ++ "\n")) := by
    intro vs rs tr hp he
    rcases hc : w.conn w.body (indexPage lib) with _ | ⟨n, e⟩
    · left
      rw [errorResponses_emit_ok _ _ _ _ _ _ hc, pageData_emit, hp, he]
      exact ⟨rfl, rfl, emit_ok_body _ _ _ _ _ _ hc⟩
    · right
      rw [errorResponses_emit_fail _ _ _ _ _ _ _ _ hc, pageData_emit, hp, he]
      exact ⟨rfl, n, e, rfl, rfl, emit_fail_body _ _ _ _ _ _ _ _ hc⟩
  have habort : ∀ (e : String) (tr : List Call), pageData tr = [] → errorResponses tr = [] →
      pageData (abort w e tr).trace = [] ∧
      ∃ e1, errorResponses (abort w e tr).trace = [(e1, 500)] ∧
        (abort w e tr).w.body = w.body ++ w.accepted w.body (e1 ++ "\n") := by
    intro e tr hp he
    rw [pageData_abort, errorResponses_abort, hp, he]
    exact ⟨rfl, e, rfl, Error_body w e _⟩
  cases hv : MarshalIndent (mapValue params.VariableValues) "" "  " with
  | error ev =>
    rw [render_vars_error lib Do w params ev hv]
    exact Or.inr (Or.inl (habort ev [] rfl rfl))
  | ok v =>
    by_cases hq : params.RequestString = ""
    · rw [render_empty lib Do w params v hv hq]
      rcases hemit (normalize v) "" [] rfl rfl with h | h
      · exact Or.inl h
      · exact Or.inr (Or.inr h)
    · cases hr : MarshalIndent (Do params) "" "  " with
      | error er =>
        rw [render_result_error lib Do w params v er hv hq hr]
        exact Or.inr (Or.inl (habort er [Call.Do params] rfl rfl))
      | ok r =>
        rw [render_result_ok lib Do w params v r hv hq hr]
        rcases hemit (normalize v) r [Call.Do params] rfl rfl with h | h
        · exact Or.inl h
        · exact Or.inr (Or.inr h)

theorem success_body (lib : TemplateLib) (Do : Params → Value) (w : ResponseWriter)
    (params : Params) (hok : errorResponses (renderGraphiQL lib Do w params).trace = []) :
    (renderGraphiQL lib Do w params).w.body = w.body ++ indexPage lib := by
  rcases render_cases lib Do w params with h | ⟨_, e, he, _⟩ | ⟨_, n, e, _, he, _⟩
  · exact h.2.2
  · rw [he] at hok; cases hok
  · rw [he] at hok; cases hok

/-! ## The page as sent -/

theorem escaped_length : (escapeText indexBody).length = 2108 := by
  decide!

theorem indexBody_length : indexBody.length = 3536 := by
  decide!

theorem escaped_has_no_payload : hasSub payload.data (escapeText indexBody).data = false := by
  decide!

theorem escaped_has_no_html_comment :
    hasSub "<!--".data (escapeText indexBody).data = false := by
  decide!

/-! ## The engine is called for a non-empty query (C1, C2) -/

/-- C1, as stated, fails: a request with a non-empty query whose variables hold a
value the encoder rejects returns before the engine is reached; the engine is
called zero times. -/
theorem engine_not_called_on_bad_variables :
    channelVars.RequestString ≠ "" ∧
      (engineCalls (renderGraphiQL plainLib typenameEngine (fresh okConn) channelVars).trace).length
        = 0 := by
  decide!

/-- C1, amended: for every request whose query is non-empty and whose variables
serialize, one run calls the engine exactly once, and the argument of that call
is the request as supplied. -/
theorem engine_called_once (lib : TemplateLib) (Do : Params → Value) (w : ResponseWriter)
    (params : Params) (hq : params.RequestString ≠ "")
    (hv : ∃ v, MarshalIndent (mapValue params.VariableValues) "" "  " = .ok v) :
    engineCalls (renderGraphiQL lib Do w params).trace = [params] := by
  obtain ⟨v, hv⟩ := hv
  cases hr : MarshalIndent (Do params) "" "  " with
  | error e =>
    rw [render_result_error lib Do w params v e hv hq hr, engineCalls_abort]
    simp [engineCalls]
  | ok r =>
    rw [render_result_ok lib Do w params v r hv hq hr, engineCalls_emit]
    simp [engineCalls]

theorem engine_called_once_witness :
    scenarioB.RequestString ≠ "" ∧
      (∃ v, MarshalIndent (mapValue scenarioB.VariableValues) "" "  " = .ok v) ∧
      engineCalls (renderGraphiQL plainLib typenameEngine (fresh okConn) scenarioB).trace
        = [scenarioB] :=
  ⟨by decide, ⟨"null", by decide⟩,
    engine_called_once plainLib typenameEngine (fresh okConn) scenarioB (by decide)
      ⟨"null", by decide⟩⟩

/-- C2: for every request whose query is empty, whatever its variables and
operation name, the engine is never called and every page data the run builds
has an empty `ResultString`; the page data is built whenever the variables
serialize. -/
theorem empty_query_skips_engine (lib : TemplateLib) (Do : Params → Value)
    (w : ResponseWriter) (params : Params) (hq : params.RequestString = "") :
    engineCalls (renderGraphiQL lib Do w params).trace = [] ∧
      (∀ d ∈ pageData (renderGraphiQL lib Do w params).trace, d.ResultString = "") ∧
      (∀ v, MarshalIndent (mapValue params.VariableValues) "" "  " = .ok v →
        pageData (renderGraphiQL lib Do w params).trace = [pageOf params (normalize v) ""]) := by
  cases hv : MarshalIndent (mapValue params.VariableValues) "" "  " with
  | error e =>
    rw [render_vars_error lib Do w params e hv, engineCalls_abort, pageData_abort]
    simp [engineCalls, pageData]
  | ok v =>
    rw [render_empty lib Do w params v hv hq, engineCalls_emit, pageData_emit]
    simp [engineCalls, pageData, pageOf]

theorem empty_query_skips_engine_witness :
    scenarioA.RequestString = "" ∧
      engineCalls (renderGraphiQL plainLib typenameEngine (fresh okConn) scenarioA).trace = [] ∧
      (∀ d ∈ pageData (renderGraphiQL plainLib typenameEngine (fresh okConn) scenarioA).trace,
        d.ResultString = "") ∧
      (∀ v, MarshalIndent (mapValue scenarioA.VariableValues) "" "  " = .ok v →
        pageData (renderGraphiQL plainLib typenameEngine (fresh okConn) scenarioA).trace
          = [pageOf scenarioA (normalize v) ""]) :=
  ⟨by decide, empty_query_skips_engine plainLib typenameEngine (fresh okConn) scenarioA (by decide)⟩

/-! ## The variables text (C3, C4) -/

/-- C3: when the variables serialize to the text `null`, the `VariablesString` of
the page data is the empty string and not the text `null`; when they serialize
to any other text, it is that text.  The page data is built whenever the query
is empty or the engine's result serializes. -/
theorem variables_text (lib : TemplateLib) (Do : Params → Value) (w : ResponseWriter)
    (params : Params) (s : String)
    (hs : MarshalIndent (mapValue params.VariableValues) "" "  " = .ok s) :
    (∀ d ∈ pageData (renderGraphiQL lib Do w params).trace,
        (s = "null" → d.VariablesString = "" ∧ d.VariablesString ≠ "null") ∧
        (s ≠ "null" → d.VariablesString = s)) ∧
      ((params.RequestString = "" ∨ ∃ r, MarshalIndent (Do params) "" "  " = .ok r) →
        ∃ d, pageData (renderGraphiQL lib Do w params).trace = [d]) := by
  have hn : (s = "null" → normalize s = "" ∧ normalize s ≠ "null") ∧
      (s ≠ "null" → normalize s = s) := by
    constructor
    · intro h; subst h; decide
    · intro h; simp [normalize, h]
  by_cases hq : params.RequestString = ""
  · rw [render_empty lib Do w params s hs hq, pageData_emit]
    simp [pageData, pageOf, hq]
    exact hn
  · cases hr : MarshalIndent (Do params) "" "  " with
    | error e =>
      rw [render_result_error lib Do w params s e hs hq hr, pageData_abort]
      simp [pageData, hq]
    | ok r =>
      rw [render_result_ok lib Do w params s r hs hq hr, pageData_emit]
      simp [pageData, pageOf, hq]
      exact hn

theorem variables_text_witness :
    MarshalIndent (mapValue scenarioB.VariableValues) "" "  " = .ok "null" ∧
      (∀ d ∈ pageData (renderGraphiQL plainLib typenameEngine (fresh okConn) scenarioB).trace,
        ("null" = "null" → d.VariablesString = "" ∧ d.VariablesString ≠ "null") ∧
        ("null" ≠ "null" → d.VariablesString = "null")) ∧
      ((scenarioB.RequestString = "" ∨
          ∃ r, MarshalIndent (typenameEngine scenarioB) "" "  " = .ok r) →
        ∃ d, pageData (renderGraphiQL plainLib typenameEngine (fresh okConn) scenarioB).trace
          = [d]) :=
  ⟨by decide, variables_text plainLib typenameEngine (fresh okConn) scenarioB "null" (by decide)⟩

/-- C4, as stated, fails: in Scenario A the variables are an empty map that is
present, its serialization is an opening and a closing brace, and that text, not
the empty string, is the `VariablesString` of the page data. -/
theorem scenarioA_variables_not_blank :
    (pageData (renderGraphiQL plainLib typenameEngine (fresh okConn) scenarioA).trace).map
        (fun d => d.VariablesString) = ["\x7b\x7d"] ∧
      "\x7b\x7d" ≠ "" := by
  decide!

/-- C4, amended: in Scenario A, on a response writer that has sent no status yet,
the status is 200, the engine is not called, and the page data has an empty
`ResultString` and the two braces of the empty object as `VariablesString`. -/
theorem scenarioA_page (lib : TemplateLib) (Do : Params → Value) (w : ResponseWriter)
    (hw : w.wroteHeader = false) :
    (renderGraphiQL lib Do w scenarioA).w.status = 200 ∧
      engineCalls (renderGraphiQL lib Do w scenarioA).trace = [] ∧
      pageData (renderGraphiQL lib Do w scenarioA).trace =
        [{ GraphiqlVersion := "3.2.0", QueryString := "", VariablesString := "\x7b\x7d",
           OperationName := "", ResultString := "" }] := by
  have hv : MarshalIndent (mapValue scenarioA.VariableValues) "" "  " = .ok "\x7b\x7d" := by
    decide
  have hq : scenarioA.RequestString = "" := by decide
  rw [render_empty lib Do w scenarioA _ hv hq, engineCalls_emit, pageData_emit]
  refine ⟨emit_status lib w scenarioA _ _ _ hw, by simp [engineCalls], ?_⟩
  simp [pageData, pageOf, scenarioA, normalize, graphiqlVersion]

theorem scenarioA_page_witness :
    (fresh okConn).wroteHeader = false ∧
      (renderGraphiQL plainLib typenameEngine (fresh okConn) scenarioA).w.status = 200 ∧
      engineCalls (renderGraphiQL plainLib typenameEngine (fresh okConn) scenarioA).trace = [] ∧
      pageData (renderGraphiQL plainLib typenameEngine (fresh okConn) scenarioA).trace =
        [{ GraphiqlVersion := "3.2.0", QueryString := "", VariablesString := "\x7b\x7d",
           OperationName := "", ResultString := "" }] :=
  ⟨by decide, scenarioA_page plainLib typenameEngine (fresh okConn) (by decide)⟩

/-! ## The result text (C5, C6) -/

/-- C5: for every request with a non-empty query for which the engine's result
serializes, the `ResultString` of the page data is `MarshalIndent` of the value the
engine returned for this request, with the empty prefix and an indent of two
spaces; the page data is built whenever the variables serialize. -/
theorem result_text (lib : TemplateLib) (Do : Params → Value) (w : ResponseWriter)
    (params : Params) (s : String) (hq : params.RequestString ≠ "")
    (hs : MarshalIndent (Do params) "" "  " = .ok s) :
    (∀ d ∈ pageData (renderGraphiQL lib Do w params).trace, d.ResultString = s) ∧
      ((∃ v, MarshalIndent (mapValue params.VariableValues) "" "  " = .ok v) →
        ∃ d, pageData (renderGraphiQL lib Do w params).trace = [d]) := by
  cases hv : MarshalIndent (mapValue params.VariableValues) "" "  " with
  | error e =>
    rw [render_vars_error lib Do w params e hv, pageData_abort]
    simp [pageData]
  | ok v =>
    rw [render_result_ok lib Do w params v s hv hq hs, pageData_emit]
    simp [pageData, pageOf]

theorem result_text_witness :
    scenarioB.RequestString ≠ "" ∧
      MarshalIndent (typenameEngine scenarioB) "" "  "
        = .ok "\x7b\n  \x22data\x22: \x7b\n    \x22__typename\x22: \x22Query\x22\n  \x7d\n\x7d" ∧
      (∀ d ∈ pageData (renderGraphiQL plainLib typenameEngine (fresh okConn) scenarioB).trace,
        d.ResultString
          = "\x7b\n  \x22data\x22: \x7b\n    \x22__typename\x22: \x22Query\x22\n  \x7d\n\x7d") ∧
      ((∃ v, MarshalIndent (mapValue scenarioB.VariableValues) "" "  " = .ok v) →
        ∃ d, pageData (renderGraphiQL plainLib typenameEngine (fresh okConn) scenarioB).trace
          = [d]) :=
  ⟨by decide, by decide,
    result_text plainLib typenameEngine (fresh okConn) scenarioB _ (by decide) (by decide)⟩

/-- C6: for every request with a non-empty query for which serializing the
engine's result fails, on a response writer that has sent no status yet: the
status is 500, the template is never executed (no page data, no page byte), and
exactly one error response is made, with a non-empty message, which is the
encoder's error when the variables serialize; the response body gains what the
connection accepts of the message and its newline. -/
theorem result_failure (lib : TemplateLib) (Do : Params → Value) (w : ResponseWriter)
    (params : Params) (e : String) (hw : w.wroteHeader = false)
    (hq : params.RequestString ≠ "")
    (he : MarshalIndent (Do params) "" "  " = .error e) :
    (renderGraphiQL lib Do w params).w.status = 500 ∧
      pageData (renderGraphiQL lib Do w params).trace = [] ∧
      ∃ msg, msg ≠ "" ∧
        errorResponses (renderGraphiQL lib Do w params).trace = [(msg, 500)] ∧
        (renderGraphiQL lib Do w params).w.body = w.body ++ w.accepted w.body (msg ++ "\n") ∧
        ((∃ v, MarshalIndent (mapValue params.VariableValues) "" "  " = .ok v) → msg = e) := by
  cases hv : MarshalIndent (mapValue params.VariableValues) "" "  " with
  | error ev =>
    rw [render_vars_error lib Do w params ev hv, pageData_abort, errorResponses_abort]
    refine ⟨Error_status_fresh w ev _ hw, by simp [pageData], ev,
      MarshalIndent_error_ne_empty _ _ _ _ hv, by simp [errorResponses, StatusInternalServerError],
      Error_body w ev _, ?_⟩
    rintro ⟨v, hv1⟩
    cases hv1
  | ok v =>
    rw [render_result_error lib Do w params v e hv hq he, pageData_abort, errorResponses_abort]
    refine ⟨Error_status_fresh w e _ hw, by simp [pageData], e,
      MarshalIndent_error_ne_empty _ _ _ _ he, by simp [errorResponses, StatusInternalServerError],
      Error_body w e _, fun _ => rfl⟩

theorem result_failure_witness :
    (fresh okConn).wroteHeader = false ∧ scenarioB.RequestString ≠ "" ∧
      MarshalIndent (channelEngine scenarioB) "" "  "
        = .error "json: unsupported type: chan int" ∧
      (renderGraphiQL plainLib channelEngine (fresh okConn) scenarioB).w.body
        = "json: unsupported type: chan int\n" ∧
      (renderGraphiQL plainLib channelEngine (fresh okConn) scenarioB).w.status = 500 ∧
      pageData (renderGraphiQL plainLib channelEngine (fresh okConn) scenarioB).trace = [] ∧
      ∃ msg, msg ≠ "" ∧
        errorResponses (renderGraphiQL plainLib channelEngine (fresh okConn) scenarioB).trace
          = [(msg, 500)] ∧
        (renderGraphiQL plainLib channelEngine (fresh okConn) scenarioB).w.body
          = (fresh okConn).body ++ (fresh okConn).accepted (fresh okConn).body (msg ++ "\n") ∧
        ((∃ v, MarshalIndent (mapValue scenarioB.VariableValues) "" "  " = .ok v) →
          msg = "json: unsupported type: chan int") :=
  ⟨by decide, by decide, by decide, by decide!,
    result_failure plainLib channelEngine (fresh okConn) scenarioB _ (by decide) (by decide)
      (by decide)⟩

/-! ## The failure paths (C7, C8) -/

/-- C8, as stated, fails: when the connection breaks after five bytes of the
page, the run has executed the template and made an error response, and the
body holds those five page bytes followed by the error text. -/
theorem page_bytes_then_error_response :
    (pageData (renderGraphiQL plainLib typenameEngine (fresh brokenConn) scenarioA).trace).length
        = 1 ∧
      errorResponses (renderGraphiQL plainLib typenameEngine (fresh brokenConn) scenarioA).trace
        = [("write tcp: broken pipe", 500)] ∧
      String.mk ((indexPage plainLib).data.take 5) = "\n<!--" ∧
      (renderGraphiQL plainLib typenameEngine (fresh brokenConn) scenarioA).w.body
        = "\n<!--" ++ "write tcp: broken pipe\n" := by
  decide!

/-- C8, amended: every run ends in exactly one of three ways.  Success: no error
response, and the body gains the complete page and nothing else.  Failure before
the template is executed: one error response, and the body gains no page byte,
only what the connection accepts of the error text.  Failure of the page write,
which happens only when the connection reports an error for it: the body gains
the page bytes the connection accepted, followed by what it accepts of the error
text. -/
theorem page_or_error_response (lib : TemplateLib) (Do : Params → Value)
    (w : ResponseWriter) (params : Params) :
    (errorResponses (renderGraphiQL lib Do w params).trace = [] ∧
      (pageData (renderGraphiQL lib Do w params).trace).length = 1 ∧
      (renderGraphiQL lib Do w params).w.body = w.body ++ indexPage lib) ∨
    (pageData (renderGraphiQL lib Do w params).trace = [] ∧
      ∃ e, errorResponses (renderGraphiQL lib Do w params).trace = [(e, 500)] ∧
        (renderGraphiQL lib Do w params).w.body = w.body ++ w.accepted w.body (e ++ "\n")) ∨
    ((pageData (renderGraphiQL lib Do w params).trace).length = 1 ∧
      ∃ n e, w.conn w.body (indexPage lib) = some (n, e) ∧
        errorResponses (renderGraphiQL lib Do w params).trace = [(e, 500)] ∧
        (renderGraphiQL lib Do w params).w.body =
          w.body ++ String.mk ((indexPage lib).data.take n) ++
            w.accepted (w.body ++ String.mk ((indexPage lib).data.take n)) (e ++ "\n")) :=
  render_cases lib Do w params

/-! ## The page does not depend on the request (C9, C10) -/

/-- C9: for every request whose query contains the payload, on the success path
(no error response) the bytes the run adds to the body, the HTML page, do not
contain the payload anywhere, so in no script element either.  The template
library rewrites static text as `html/template` does. -/
theorem payload_not_in_page (evalAction : String → graphiqlData → Except String String)
    (Do : Params → Value) (w : ResponseWriter) (params : Params)
    (_hp : occursIn payload params.RequestString)
    (hok : errorResponses (renderGraphiQL (htmlTemplate evalAction) Do w params).trace = []) :
    ∃ html, (renderGraphiQL (htmlTemplate evalAction) Do w params).w.body = w.body ++ html ∧
      ¬ occursIn payload html :=
  ⟨escapeText indexBody, success_body (htmlTemplate evalAction) Do w params hok,
    not_occursIn_of_hasSub _ _ escaped_has_no_payload⟩

theorem payload_not_in_page_witness :
    occursIn payload injection.RequestString ∧
      errorResponses (renderGraphiQL (htmlTemplate plainLib.evalAction) typenameEngine
        (fresh okConn) injection).trace = [] ∧
      ∃ html, (renderGraphiQL (htmlTemplate plainLib.evalAction) typenameEngine
          (fresh okConn) injection).w.body = (fresh okConn).body ++ html ∧
        ¬ occursIn payload html :=
  ⟨occursIn_of_hasSub _ _ (by decide), by decide!,
    payload_not_in_page plainLib.evalAction typenameEngine (fresh okConn) injection
      (occursIn_of_hasSub _ _ (by decide)) (by decide!)⟩

/-- C10, as stated, fails: on a successful run the bytes sent are not the body of
the `index` template.  The body has 3536 bytes, the page sent 2108: the template
library elides the comments of the static text. -/
theorem page_is_not_the_template_body :
    errorResponses (renderGraphiQL (htmlTemplate plainLib.evalAction) typenameEngine
        (fresh okConn) scenarioB).trace = [] ∧
      (renderGraphiQL (htmlTemplate plainLib.evalAction) typenameEngine
        (fresh okConn) scenarioB).w.body.length = 2108 ∧
      indexBody.length = 3536 ∧
      (renderGraphiQL (htmlTemplate plainLib.evalAction) typenameEngine
        (fresh okConn) scenarioB).w.body ≠ indexBody := by
  decide!

/-- C10, amended: the page does not depend on the request.  The parsed `index`
template is one node of static text, so it holds no action that reads the page
data; and for any two requests, engines and response writers on which the run
succeeds (no error response), the bytes added to the body are the same: the
body of the `index` template as `html/template` sends static text, that is with
its comments elided (2108 of its 3536 bytes, no HTML comment left).  A non-empty
query still has the engine called, and its result does not reach the page. -/
theorem page_independent_of_request
    (evalAction : String → graphiqlData → Except String String) (Do1 Do2 : Params → Value)
    (w1 w2 : ResponseWriter) (p1 p2 : Params)
    (h1 : errorResponses (renderGraphiQL (htmlTemplate evalAction) Do1 w1 p1).trace = [])
    (h2 : errorResponses (renderGraphiQL (htmlTemplate evalAction) Do2 w2 p2).trace = []) :
    (∃ t, (New "GraphiQL").Parse graphiqlTemplate = .ok t ∧
      t.Lookup "index" = some [Node.text indexBody]) ∧
    (renderGraphiQL (htmlTemplate evalAction) Do1 w1 p1).w.body
      = w1.body ++ escapeText indexBody ∧
    (renderGraphiQL (htmlTemplate evalAction) Do2 w2 p2).w.body
      = w2.body ++ escapeText indexBody ∧
    (escapeText indexBody).length = 2108 ∧ indexBody.length = 3536 ∧
    ¬ occursIn "<!--" (escapeText indexBody) ∧
    (p1.RequestString ≠ "" →
      engineCalls (renderGraphiQL (htmlTemplate evalAction) Do1 w1 p1).trace = [p1]) := by
  refine ⟨⟨parsedTemplate, Parse_graphiqlTemplate, Lookup_index⟩,
    success_body (htmlTemplate evalAction) Do1 w1 p1 h1,
    success_body (htmlTemplate evalAction) Do2 w2 p2 h2,
    escaped_length, indexBody_length,
    not_occursIn_of_hasSub _ _ escaped_has_no_html_comment, ?_⟩
  intro hq
  cases hv : MarshalIndent (mapValue p1.VariableValues) "" "  " with
  | error ev =>
    rw [render_vars_error _ Do1 w1 p1 ev hv, errorResponses_abort] at h1
    simp [errorResponses] at h1
  | ok v =>
    cases hr : MarshalIndent (Do1 p1) "" "  " with
    | error er =>
      rw [render_result_error _ Do1 w1 p1 v er hv hq hr, errorResponses_abort] at h1
      simp [errorResponses] at h1
    | ok r =>
      rw [render_result_ok _ Do1 w1 p1 v r hv hq hr, engineCalls_emit]
      simp [engineCalls]

theorem page_independent_of_request_witness :
    errorResponses (renderGraphiQL (htmlTemplate plainLib.evalAction) typenameEngine
      (fresh okConn) scenarioB).trace = [] ∧
    errorResponses (renderGraphiQL (htmlTemplate plainLib.evalAction) channelEngine
      (fresh okConn) scenarioA).trace = [] ∧
    (∃ t, (New "GraphiQL").Parse graphiqlTemplate = .ok t ∧
      t.Lookup "index" = some [Node.text indexBody]) ∧
    (renderGraphiQL (htmlTemplate plainLib.evalAction) typenameEngine
      (fresh okConn) scenarioB).w.body = (fresh okConn).body ++ escapeText indexBody ∧
    (renderGraphiQL (htmlTemplate plainLib.evalAction) channelEngine
      (fresh okConn) scenarioA).w.body = (fresh okConn).body ++ escapeText indexBody ∧
    (escapeText indexBody).length = 2108 ∧ indexBody.length = 3536 ∧
    ¬ occursIn "<!--" (escapeText indexBody) ∧
    (scenarioB.RequestString ≠ "" →
      engineCalls (renderGraphiQL (htmlTemplate plainLib.evalAction) typenameEngine
        (fresh okConn) scenarioB).trace = [scenarioB]) :=
  ⟨by decide!, by decide!,
    page_independent_of_request plainLib.evalAction typenameEngine channelEngine (fresh okConn)
      (fresh okConn) scenarioB scenarioA (by decide!) (by decide!)⟩

end Handler
